import Mathlib

/-!
Shallow embedding of the puzzle-js storefront transport layer
(src/server.ts and src/storefront.ts) and proofs of its specified
properties: protocol negotiation precedence, the gateway readiness
barrier, the fail-fast bootstrap pipeline, custom-header resolution,
and the server close/reset lifecycle.
-/

set_option maxRecDepth 2000

/-! ## Transfer protocols and protocol options (server.ts) -/

/-- Transfer protocol identifiers (enums.ts, referenced by server.ts):
H2 and SPDY are the multiplexed protocols tested in Server.listen;
HTTP1 is the plain protocol identifier. -/
inductive TRANSFER_PROTOCOLS where
  | H2
  | SPDY
  | HTTP1
deriving DecidableEq, Repr

/-- HTTP methods used by the storefront (GET and POST are the ones that
occur in src). -/
inductive HTTP_METHODS where
  | get
  | post
deriving DecidableEq, Repr

/-- Protocol options as passed to Server.useProtocolOptions
(ISpdyConfiguration). cert, key and passphrase are optional strings;
the TypeScript truthiness test treats an absent or empty string as
not supplied. -/
structure ISpdyConfiguration where
  cert : Option String
  key : Option String
  passphrase : Option String
  protocols : List TRANSFER_PROTOCOLS
deriving DecidableEq, Repr

/-- The fixed connection block built by Server.useProtocolOptions:
windowSize 1024*1024, autoSpdy31 false. -/
structure SpdyConnection where
  windowSize : Nat
  autoSpdy31 : Bool
deriving DecidableEq, Repr

/-- The spdy block of the stored configuration (INodeSpdyConfiguration.spdy):
x-forwarded-for flag, the protocol list, and the connection block. -/
structure SpdyBlock where
  xForwardedFor : Bool
  protocols : List TRANSFER_PROTOCOLS
  connection : SpdyConnection
deriving DecidableEq, Repr

/-- The stored spdy configuration (INodeSpdyConfiguration), built by
Server.useProtocolOptions from the supplied options. -/
structure INodeSpdyConfiguration where
  cert : Option String
  key : Option String
  passphrase : Option String
  spdy : SpdyBlock
deriving DecidableEq, Repr

/-- TypeScript truthiness of an optional string: undefined and the empty
string are falsy, any other string is truthy. Used for the
`spdyConfiguration.cert && spdyConfiguration.key` test in Server.listen. -/
def strTruthy : Option String → Bool
  | some s => s != ""
  | none => false

/-! ## The TransportServer state (server.ts, class Server) -/

/-- Middleware entries that Server installs on an express app.
The first seven are the default stack of Server.addMiddlewares
(responseTime, optional morgan, optional helmet, bodyParser.urlencoded,
bodyParser.json, cookieParser, shrink-ray or compression); custom is an
addUse-registered middleware (path-scoped when the path is present), and
staticMount is a setStatic mount. -/
inductive Mw where
  | responseTime
  | morgan
  | helmet
  | bodyUrlencoded
  | bodyJson
  | cookieParser
  | shrinkRay
  | compression
  | custom (path : Option String)
  | staticMount (path : Option String) (source : String)
deriving DecidableEq, Repr

/-- Compile-time flags of config.ts consulted by Server.addMiddlewares:
USE_MORGAN, USE_HELMET, BROTLI. -/
structure ServerFlags where
  useMorgan : Bool
  useHelmet : Bool
  brotli : Bool
deriving DecidableEq, Repr

/-- A route path argument of Server.addRoute: a single path string or an
array of path strings (addRoute accepts both). -/
inductive PathArg where
  | one (p : String)
  | many (ps : List String)
deriving DecidableEq, Repr

/-- The mutable express app owned by the Server: its middleware stack and
its registered routes, both in registration order. -/
structure AppState where
  middlewares : List Mw
  routes : List (PathArg × HTTP_METHODS)
deriving DecidableEq, Repr

/-- The transport branch selected by Server.listen: the spdy (multiplexed)
listener, the https (TLS) listener, or the plain http listener. -/
inductive ListenBranch where
  | spdy
  | https
  | plain
deriving DecidableEq, Repr

/-- The active listener created by Server.listen: which branch was taken,
the port, the bind host ('0.0.0.0' is pushed when ipv4 is set), and
whether the global request timeout was applied afterwards. -/
structure Listener where
  branch : ListenBranch
  port : Nat
  host : Option String
  timeoutApplied : Bool
deriving DecidableEq, Repr

/-- The Server instance state: the express app, the optional active
listener (the server field, null until listen), and the optional stored
spdy configuration (undefined until useProtocolOptions). -/
structure Server where
  app : AppState
  server : Option Listener
  spdyConfiguration : Option INodeSpdyConfiguration
deriving DecidableEq, Repr

/-- The default middleware stack installed by Server.addMiddlewares, in
order: responseTime, morgan if USE_MORGAN, helmet if USE_HELMET,
bodyParser.urlencoded, bodyParser.json, cookieParser, then shrink-ray
when BROTLI else compression. -/
def defaultMiddlewares (f : ServerFlags) : List Mw :=
  [Mw.responseTime]
    ++ (if f.useMorgan then [Mw.morgan] else [])
    ++ (if f.useHelmet then [Mw.helmet] else [])
    ++ [Mw.bodyUrlencoded, Mw.bodyJson, Mw.cookieParser]
    ++ [if f.brotli then Mw.shrinkRay else Mw.compression]

/-- Server.addMiddlewares: appends the default stack to the current app
(called on a freshly created app in the constructor and in close). -/
def AppState.addMiddlewares (f : ServerFlags) (a : AppState) : AppState :=
  { a with middlewares := a.middlewares ++ defaultMiddlewares f }

/-- A freshly constructed express app: no middleware, no routes. -/
def emptyApp : AppState := { middlewares := [], routes := [] }

/-- The Server constructor: a fresh app with the default middleware stack
applied, no active listener, no spdy configuration. -/
def newServer (f : ServerFlags) : Server :=
  { app := emptyApp.addMiddlewares f, server := none, spdyConfiguration := none }

/-- Server.useProtocolOptions: when options are supplied, stores them as
the spdy configuration with the fixed spdy block (x-forwarded-for true,
windowSize 1024*1024, autoSpdy31 false); silently does nothing when they
are absent. -/
def Server.useProtocolOptions (options : Option ISpdyConfiguration) (s : Server) : Server :=
  match options with
  | some o =>
      { s with
        spdyConfiguration := some
          { cert := o.cert
            key := o.key
            passphrase := o.passphrase
            spdy :=
              { xForwardedFor := true
                protocols := o.protocols
                connection := { windowSize := 1024 * 1024, autoSpdy31 := false } } } }
  | none => s

/-- Server.addRoute: appends the route entry to the app (the express
app[method](path, middlewares, handler) registration). -/
def Server.addRoute (path : PathArg) (method : HTTP_METHODS) (s : Server) : Server :=
  { s with app := { s.app with routes := s.app.routes ++ [(path, method)] } }

/-- The protocol set contains a multiplexed protocol: the
`protocols.includes(H2) || protocols.includes(SPDY)` test of Server.listen. -/
def hasMultiplexedProtocol (ps : List TRANSFER_PROTOCOLS) : Bool :=
  ps.contains TRANSFER_PROTOCOLS.H2 || ps.contains TRANSFER_PROTOCOLS.SPDY

/-- The branch selection of Server.listen, exactly as the source orders it:
if the spdy configuration is set and its protocols include H2 or SPDY,
the spdy listener; else if the configuration is set and cert and key are
truthy, the https listener; else the plain app listener. -/
def negotiate (cfg : Option INodeSpdyConfiguration) : ListenBranch :=
  match cfg with
  | some c =>
      if hasMultiplexedProtocol c.spdy.protocols then ListenBranch.spdy
      else if strTruthy c.cert && strTruthy c.key then ListenBranch.https
      else ListenBranch.plain
  | none => ListenBranch.plain

/-- Server.listen: creates the listener on the negotiated branch at the
given port (binding 0.0.0.0 when ipv4 is set) and applies the global
request timeout. The app is not modified. -/
def Server.listen (port : Nat) (ipv4 : Bool) (s : Server) : Server :=
  { s with
    server := some
      { branch := negotiate s.spdyConfiguration
        port := port
        host := if ipv4 then some "0.0.0.0" else none
        timeoutApplied := true } }

/-- Server.close: when a listener is active, stops and discards it, and
replaces the app by a fresh one with the default middleware stack
reapplied; when no listener is active, does nothing. -/
def Server.close (f : ServerFlags) (s : Server) : Server :=
  match s.server with
  | some _ =>
      { s with server := none, app := emptyApp.addMiddlewares f }
  | none => s

/-! ## The negotiation precedence as the specification words it -/

/-- The three-step precedence exactly as the specification states it:
(1) protocol options set and their protocol set includes a multiplexed
protocol, the multiplexed listener regardless of credentials; (2) else
protocol options carry certificate and key, the TLS listener; (3) else
the plain listener. Carrying a credential is read as the field being
supplied non-empty, the truthiness the source tests. -/
def spec_negotiate (cfg : Option INodeSpdyConfiguration) : ListenBranch :=
  if (match cfg with
      | some c => hasMultiplexedProtocol c.spdy.protocols
      | none => false) then
    ListenBranch.spdy
  else if (match cfg with
      | some c => strTruthy c.cert && strTruthy c.key
      | none => false) then
    ListenBranch.https
  else
    ListenBranch.plain

/-! ## Custom headers (server.ts, Server.addCustomHeaders) -/

/-- A custom header configuration (ICustomHeader): key, value, and the
isEnv flag selecting environment sourcing. -/
structure ICustomHeader where
  key : String
  value : String
  isEnv : Bool
deriving DecidableEq, Repr

/-- The process environment: a partial map from variable names to their
string contents (process.env). -/
def Env : Type := String → Option String

/-- TypeScript truthiness of a process.env lookup: an unset variable is
undefined (falsy) and a variable set to the empty string is falsy. -/
def envTruthy (env : Env) (k : String) : Bool :=
  match env k with
  | some s => s != ""
  | none => false

/-- The per-header resolution performed by the middleware installed by
Server.addCustomHeaders: start from the literal value; when isEnv is set
and the environment lookup of that value is truthy, use the environment
content instead. -/
def resolveHeaderValue (env : Env) (h : ICustomHeader) : String :=
  if h.isEnv && envTruthy env h.value then (env h.value).getD h.value
  else h.value

/-- The response headers emitted by the custom-headers middleware for one
request: each configured header set, in order, to its resolved value. -/
def customHeadersEmitted (env : Env) (hs : List ICustomHeader) : List (String × String) :=
  hs.map (fun h => (h.key, resolveHeaderValue env h))

/-- The resolution rule exactly as the specification words it: if
isEnvSourced and the named environment variable exists, the environment
variable content; otherwise the literal value. -/
def claim_resolveHeaderValue (env : Env) (h : ICustomHeader) : String :=
  if h.isEnv && (env h.value).isSome then (env h.value).getD h.value
  else h.value

/-- The resolution rule with the amendment the code forces: the
environment content is used only when the variable exists with a
non-empty content; an unset or empty variable falls back to the literal. -/
def amended_resolveHeaderValue (env : Env) (h : ICustomHeader) : String :=
  match env h.value with
  | some s => if h.isEnv && s != "" then s else h.value
  | none => h.value

/-- A concrete environment for the counterexample: FOO exists and is set
to the empty string, everything else is unset. -/
def envFooEmpty : Env := fun k => if k = "FOO" then some "" else none

/-- The header of the specification example: key X, value FOO,
environment-sourced. -/
def headerXFoo : ICustomHeader := { key := "X", value := "FOO", isEnv := true }

/-! ## The gateway readiness barrier (storefront.ts) -/

/-- The readiness barrier state owned by the Storefront: the gatewaysReady
counter and the set of gateway names whose one-shot ready listener has
already fired (events.once removes the listener after first delivery). -/
structure Barrier where
  gatewaysReady : Nat
  fired : Finset String
deriving DecidableEq

/-- The barrier at Storefront construction: counter zero, no listener
consumed. -/
def initBarrier : Barrier := { gatewaysReady := 0, fired := ∅ }

/-- One GATEWAY_READY event fired by gateway g, as processed by the
listeners installed in createStorefrontPagesAndGateways: a listener
exists only for a configured gateway (names), and it is one-shot, so the
counter is incremented only on the first delivery for g. -/
def fireReady (names : List String) (st : Barrier) (g : String) : Barrier :=
  if g ∈ names ∧ g ∉ st.fired then
    { gatewaysReady := st.gatewaysReady + 1, fired := insert g st.fired }
  else st

/-- Processing a chronological trace of GATEWAY_READY events. -/
def fireAll (names : List String) (st : Barrier) (es : List String) : Barrier :=
  es.foldl (fireReady names) st

/-- One check-then-wait iteration structure of Storefront.waitForGateways:
readyAt i is the gatewaysReady value observed at the i-th loop check,
target is the number of configured gateways; the loop exits the first
time they are equal, and each failed check costs one polling wait.
Fuel bounds the number of checks; some k means the wait resolved after
exactly k polling waits, none means it had not resolved within fuel
checks. -/
def waitLoopPolls (fuel : Nat) (readyAt : Nat → Nat) (target : Nat) (i : Nat) : Option Nat :=
  match fuel with
  | 0 => none
  | fuel' + 1 =>
      if readyAt i = target then some i
      else waitLoopPolls fuel' readyAt target (i + 1)

/-! ## The bootstrap pipeline (storefront.ts, Storefront.init) -/

/-- The outcome of one pipeline stage: it calls its continuation with no
error (ok), calls it with an error (fail), or never calls it (stall,
the behaviour of waitForGateways when a gateway never becomes ready). -/
inductive StageOutcome (ε : Type) where
  | ok
  | fail (e : ε)
  | stall
deriving DecidableEq, Repr

/-- The outcome of the async.series run: the final callback fired with no
error, fired with an error, or never fired. -/
inductive SeriesResult (ε : Type) where
  | done
  | failed (e : ε)
  | stalled
deriving DecidableEq, Repr

/-- A pipeline stage: transforms the state and reports an outcome to its
continuation. -/
def Stage (σ ε : Type) : Type := σ → σ × StageOutcome ε

/-- async.series over the stage list: stages run strictly in order, each
starting from the state its predecessor's continuation delivered; the
first error stops the run and is handed to the final callback; a stage
that never calls its continuation leaves the run suspended forever. -/
def runSeries {σ ε : Type} : List (Stage σ ε) → σ → σ × SeriesResult ε
  | [], s => (s, SeriesResult.done)
  | st :: rest, s =>
      match st s with
      | (s', StageOutcome.ok) => runSeries rest s'
      | (s', StageOutcome.fail e) => (s', SeriesResult.failed e)
      | (s', StageOutcome.stall) => (s', SeriesResult.stalled)

/-- Storefront.init's final callback around the series: on success the
server starts listening; on error the error is thrown; on a stalled
series the callback never runs, so nothing further happens. -/
def runInit {σ ε : Type} (stages : List (Stage σ ε)) (doListen : σ → σ) (s : σ) :
    σ × SeriesResult ε :=
  match runSeries stages s with
  | (s', SeriesResult.done) => (doListen s', SeriesResult.done)
  | r => r

/-- A page entry of the storefront configuration: its name and url (the
html template and condition are handled opaquely by the Page
collaborator). -/
structure PageCfg where
  name : String
  url : String
deriving DecidableEq, Repr

/-- The slice of IStorefrontConfig that the pipeline stages read: port,
dependencies, pages, optional custom headers, gateway names, ipv4. -/
structure SfCfg where
  port : Nat
  dependencies : List String
  pages : List PageCfg
  customHeaders : Option (List ICustomHeader)
  gateways : List String
  ipv4 : Bool

/-- Observable actions of a pipeline run, in the order they happen:
dependency registrations, route registrations on the transport server,
the custom-headers middleware installation, and the listen call. -/
inductive SfAction where
  | registerDependency (name : String)
  | routeAdded (path : PathArg) (method : HTTP_METHODS)
  | customHeadersInstalled
  | listenCalled (port : Nat)
deriving DecidableEq, Repr

/-- The pipeline state: the trace of actions so far, and whether the
readiness barrier is eventually satisfied (abstracting the environment
behaviour that decides if waitForGateways ever observes
gatewaysReady equal to the gateway count; the barrier itself is proved
separately on fireAll and waitLoopPolls). -/
structure SfState where
  trace : List SfAction
  gatewaysEventuallyReady : Bool
deriving DecidableEq, Repr

/-- Modelled from the spec: the PUZZLE_DEBUGGER_LINK constant of config.ts
(not under src/), the fixed path of the debug-asset route; its concrete
value is immaterial to every claim. -/
def PUZZLE_DEBUGGER_LINK : String := "/puzzle_debug.min.js"

/-- Modelled from the spec: the HEALTHCHECK_PATHS constant of enums.ts
(not under src/), the configured health-check path array; its concrete
value is immaterial to every claim. -/
def HEALTHCHECK_PATHS : List String := ["/healthcheck"]

/-- Stage 1, Storefront.registerDependencies: registers every configured
dependency with the resource factory, then calls cb with no error. -/
def stRegisterDependencies (cfg : SfCfg) : Stage SfState String :=
  fun s =>
    ({ s with trace := s.trace ++ cfg.dependencies.map SfAction.registerDependency },
      StageOutcome.ok)

/-- Stage 2, Storefront.waitForGateways: loops on the readiness barrier;
calls cb null once all gateways are ready, and never calls it when some
gateway never becomes ready. -/
def stWaitForGateways : Stage SfState String :=
  fun s => (s, if s.gatewaysEventuallyReady then StageOutcome.ok else StageOutcome.stall)

/-- Stage 3, Storefront.registerDebugScripts: adds the GET route for the
debugger link, then calls cb null. -/
def stRegisterDebugScripts : Stage SfState String :=
  fun s =>
    ({ s with
        trace := s.trace ++ [SfAction.routeAdded (PathArg.one PUZZLE_DEBUGGER_LINK) HTTP_METHODS.get] },
      StageOutcome.ok)

/-- Stage 4, Storefront.addCustomHeaders: forwards config.customHeaders to
Server.addCustomHeaders, which installs the middleware only when the
list is supplied; then calls cb. -/
def stAddCustomHeaders (cfg : SfCfg) : Stage SfState String :=
  fun s =>
    ({ s with
        trace := s.trace ++ (if cfg.customHeaders.isSome then [SfAction.customHeadersInstalled] else []) },
      StageOutcome.ok)

/-- Stage 5, Storefront.addHealthCheckRoute: adds the GET route on the
health-check path array, then calls cb. -/
def stAddHealthCheckRoute : Stage SfState String :=
  fun s =>
    ({ s with
        trace := s.trace ++ [SfAction.routeAdded (PathArg.many HEALTHCHECK_PATHS) HTTP_METHODS.get] },
      StageOutcome.ok)

/-- Stage 6, Storefront.preLoadPages: iterates Object.values(this.pages);
since this.pages is a Map, Object.values yields no entries, so no page
is recompiled and the stage completes at once. -/
def stPreLoadPages : Stage SfState String :=
  fun s => (s, StageOutcome.ok)

/-- Stage 7, Storefront.addPageRoute: for every configured page present in
the page map (every configured page is), adds its GET route and its POST
route, then calls cb. -/
def stAddPageRoute (cfg : SfCfg) : Stage SfState String :=
  fun s =>
    ({ s with
        trace := s.trace ++ cfg.pages.flatMap (fun p =>
          [SfAction.routeAdded (PathArg.one p.url) HTTP_METHODS.get,
            SfAction.routeAdded (PathArg.one p.url) HTTP_METHODS.post]) },
      StageOutcome.ok)

/-- The seven stages of Storefront.init, in source order. -/
def storefrontStages (cfg : SfCfg) : List (Stage SfState String) :=
  [stRegisterDependencies cfg,
    stWaitForGateways,
    stRegisterDebugScripts,
    stAddCustomHeaders cfg,
    stAddHealthCheckRoute,
    stPreLoadPages,
    stAddPageRoute cfg]

/-- The success continuation of Storefront.init: Server.listen on the
configured port. -/
def sfDoListen (cfg : SfCfg) (s : SfState) : SfState :=
  { s with trace := s.trace ++ [SfAction.listenCalled cfg.port] }

/-- Storefront.init without its call-once guard: async.series over the
seven stages followed by the listen-or-throw final callback. -/
def storefrontInit (cfg : SfCfg) (s : SfState) : SfState × SeriesResult String :=
  runInit (storefrontStages cfg) (sfDoListen cfg) s

/-- A state wrapped by the call-once guard: the called flag plus the
wrapped state. -/
structure OnceState (σ : Type) where
  called : Bool
  inner : σ

/-- Modelled from the spec: the callableOnce decorator of decorators.ts
(not under src/) guards a method so that it runs at most once per
instance; the first invocation marks the instance and runs the body, and
every later invocation is a no-op. -/
def callableOnce {σ : Type} (f : σ → σ) (st : OnceState σ) : OnceState σ :=
  if st.called then st else { called := true, inner := f st.inner }

/-- Storefront.init as exposed: the pipeline under the callableOnce guard. -/
def storefrontInitOnce (cfg : SfCfg) : OnceState SfState → OnceState SfState :=
  callableOnce (fun s => (storefrontInit cfg s).1)

/-! ## The route-registration event channel (server.ts constructor) -/

/-- A route-registration event published on the ADD_ROUTE topic:
path, method (the handler itself is carried opaquely). -/
structure AddRouteEvent where
  path : String
  method : HTTP_METHODS
deriving DecidableEq, Repr

/-- A subscriber on the ADD_ROUTE topic. The only subscriber in the code
is the closure the Server constructor registers, which forwards the
event into Server.addRoute on the current app. -/
inductive RouteSubscriber where
  | forwardToAddRoute
deriving DecidableEq, Repr

/-- The process state relevant to the channel: the Server instance and,
modelled from the spec, the pubsub channel of util.ts (not under src/):
a process-wide list of ADD_ROUTE subscribers invoked synchronously in
subscription order. -/
structure ProcessState where
  server : Server
  addRouteSubscribers : List RouteSubscriber

/-- Server construction at process level: the fresh server plus the
forwarding subscription the constructor installs on the channel. -/
def newProcess (f : ServerFlags) : ProcessState :=
  { server := newServer f, addRouteSubscribers := [RouteSubscriber.forwardToAddRoute] }

/-- The effect of delivering one event to one subscriber. -/
def applySubscriber (e : AddRouteEvent) (srv : Server) : RouteSubscriber → Server
  | RouteSubscriber.forwardToAddRoute => Server.addRoute (PathArg.one e.path) e.method srv

/-- Publishing an ADD_ROUTE event: every current subscriber runs
synchronously, in subscription order, against the current server. -/
def publishAddRoute (e : AddRouteEvent) (ps : ProcessState) : ProcessState :=
  { ps with server := ps.addRouteSubscribers.foldl (applySubscriber e) ps.server }

/-- Server.close lifted to the process state: the channel subscriptions
are untouched (close unregisters nothing from pubsub). -/
def processClose (f : ServerFlags) (ps : ProcessState) : ProcessState :=
  { ps with server := Server.close f ps.server }

/-! ## Concrete instances used in witnesses and counterexamples -/

/-- Concrete config flags: morgan, helmet and brotli all off. -/
def flags0 : ServerFlags := { useMorgan := false, useHelmet := false, brotli := false }

/-- A stored spdy configuration that requests the multiplexed H2 protocol
but carries no certificate and no key. -/
def cfgH2NoCreds : INodeSpdyConfiguration :=
  { cert := none
    key := none
    passphrase := none
    spdy :=
      { xForwardedFor := true
        protocols := [TRANSFER_PROTOCOLS.H2]
        connection := { windowSize := 1024 * 1024, autoSpdy31 := false } } }

/-- A stored spdy configuration with no multiplexed protocol and no
credential material. -/
def cfgHttp1NoCreds : INodeSpdyConfiguration :=
  { cert := none
    key := none
    passphrase := none
    spdy :=
      { xForwardedFor := true
        protocols := [TRANSFER_PROTOCOLS.HTTP1]
        connection := { windowSize := 1024 * 1024, autoSpdy31 := false } } }

/-- A server configured through useProtocolOptions with H2 requested and
no credentials supplied. -/
def serverH2NoCreds : Server :=
  Server.useProtocolOptions
    (some { cert := none, key := none, passphrase := none,
            protocols := [TRANSFER_PROTOCOLS.H2] })
    (newServer flags0)

/-- A fresh server that has started listening on its plain branch. -/
def listeningServer : Server := Server.listen 8080 false (newServer flags0)

/-- A concrete route-registration event. -/
def ev0 : AddRouteEvent := { path := "/p", method := HTTP_METHODS.get }

/-! ## Helper lemmas: the readiness barrier -/

theorem fireAll_cons (names : List String) (st : Barrier) (g : String) (rest : List String) :
    fireAll names st (g :: rest) = fireAll names (fireReady names st g) rest := rfl

theorem fireAll_append (names : List String) (st : Barrier) (es es' : List String) :
    fireAll names st (es ++ es') = fireAll names (fireAll names st es) es' := by
  unfold fireAll
  exact List.foldl_append _ _ _ _

/-- Membership in the consumed-listener set after a trace of ready events:
a gateway has fired exactly when it had fired before, or it is
configured and occurs in the trace. -/
theorem mem_fireAll_fired (names : List String) (es : List String) (st : Barrier) (g : String) :
    g ∈ (fireAll names st es).fired ↔ g ∈ st.fired ∨ (g ∈ names ∧ g ∈ es) := by
  induction es generalizing st with
  | nil => simp [fireAll]
  | cons a rest ih =>
      rw [fireAll_cons, ih]
      unfold fireReady
      split
      · rename_i hcond
        simp only [Finset.mem_insert, List.mem_cons]
        constructor
        · rintro ((rfl | hg) | ⟨hn, hr⟩)
          · exact Or.inr ⟨hcond.1, Or.inl rfl⟩
          · exact Or.inl hg
          · exact Or.inr ⟨hn, Or.inr hr⟩
        · rintro (hg | ⟨hn, (rfl | hr)⟩)
          · exact Or.inl (Or.inr hg)
          · exact Or.inl (Or.inl rfl)
          · exact Or.inr ⟨hn, hr⟩
      · rename_i hcond
        simp only [List.mem_cons]
        constructor
        · rintro (hg | ⟨hn, hr⟩)
          · exact Or.inl hg
          · exact Or.inr ⟨hn, Or.inr hr⟩
        · rintro (hg | ⟨hn, (rfl | hr)⟩)
          · exact Or.inl hg
          · rcases not_and_or.mp hcond with hn' | hf
            · exact absurd hn hn'
            · exact Or.inl (not_not.mp hf)
          · exact Or.inr ⟨hn, hr⟩

/-- The gatewaysReady counter always equals the number of consumed
one-shot listeners. -/
theorem fireAll_count (names : List String) (es : List String) (st : Barrier)
    (h : st.gatewaysReady = st.fired.card) :
    (fireAll names st es).gatewaysReady = (fireAll names st es).fired.card := by
  induction es generalizing st with
  | nil => exact h
  | cons a rest ih =>
      rw [fireAll_cons]
      apply ih
      unfold fireReady
      split
      · rename_i hcond
        simp [Finset.card_insert_of_not_mem hcond.2, h]
      · exact h

/-- Every consumed listener belongs to a configured gateway. -/
theorem fireAll_fired_subset (names : List String) (es : List String) (st : Barrier)
    (h : st.fired ⊆ names.toFinset) :
    (fireAll names st es).fired ⊆ names.toFinset := by
  intro g hg
  rw [mem_fireAll_fired] at hg
  rcases hg with hg | ⟨hn, _⟩
  · exact h hg
  · exact List.mem_toFinset.mpr hn

theorem fireAll_singleton (names : List String) (st : Barrier) (g : String) :
    fireAll names st [g] = fireReady names st g := rfl

/-- The gatewaysReady counter of a run from the initial barrier reaches the
number of configured gateways exactly when every configured gateway
occurs in the event trace. -/
theorem fireAll_count_complete (names es : List String) (hnd : names.Nodup) :
    (fireAll names initBarrier es).gatewaysReady = names.length ↔ ∀ g ∈ names, g ∈ es := by
  have hcount := fireAll_count names es initBarrier (by simp [initBarrier])
  have hsub : (fireAll names initBarrier es).fired ⊆ names.toFinset :=
    fireAll_fired_subset names es initBarrier (by simp [initBarrier])
  have hlen : names.toFinset.card = names.length := List.toFinset_card_of_nodup hnd
  constructor
  · intro h g hg
    have hcard : names.toFinset.card ≤ (fireAll names initBarrier es).fired.card := by omega
    have heq : (fireAll names initBarrier es).fired = names.toFinset :=
      Finset.eq_of_subset_of_card_le hsub hcard
    have hgf : g ∈ (fireAll names initBarrier es).fired := by
      rw [heq]; exact List.mem_toFinset.mpr hg
    rcases (mem_fireAll_fired names es initBarrier g).mp hgf with hf | ⟨_, hr⟩
    · simp [initBarrier] at hf
    · exact hr
  · intro h
    have heq : (fireAll names initBarrier es).fired = names.toFinset := by
      apply Finset.Subset.antisymm hsub
      intro g hg
      rw [mem_fireAll_fired]
      have hgn := List.mem_toFinset.mp hg
      exact Or.inr ⟨hgn, h g hgn⟩
    rw [hcount, heq, hlen]

/-- The counter never overshoots the number of configured gateways. -/
theorem fireAll_count_le (names es : List String) :
    (fireAll names initBarrier es).gatewaysReady ≤ names.length := by
  have hcount := fireAll_count names es initBarrier (by simp [initBarrier])
  have hsub : (fireAll names initBarrier es).fired ⊆ names.toFinset :=
    fireAll_fired_subset names es initBarrier (by simp [initBarrier])
  have h1 := Finset.card_le_card hsub
  have h2 : names.toFinset.card ≤ names.length := names.toFinset_card_le
  omega

/-- A gateway firing its ready event again after having already fired
leaves the barrier unchanged. -/
theorem fireAll_refire (names es : List String) (g : String) (hg : g ∈ es) :
    fireAll names initBarrier (es ++ [g]) = fireAll names initBarrier es := by
  rw [fireAll_append, fireAll_singleton]
  unfold fireReady
  split
  · rename_i hcond
    exfalso
    exact hcond.2 ((mem_fireAll_fired names es initBarrier g).mpr (Or.inr ⟨hcond.1, hg⟩))
  · rfl

/-- A resolved polling loop resolved at the first check where the counter
reached the target: the counter equals the target there and at no
earlier check. -/
theorem waitLoopPolls_spec (fuel : Nat) (readyAt : Nat → Nat) (target : Nat) :
    ∀ i k, waitLoopPolls fuel readyAt target i = some k →
      readyAt k = target ∧ i ≤ k ∧ ∀ j, i ≤ j → j < k → readyAt j ≠ target := by
  induction fuel with
  | zero => intro i k h; simp [waitLoopPolls] at h
  | succ fuel ih =>
      intro i k h
      unfold waitLoopPolls at h
      split at h
      · rename_i heq
        injection h with h'
        subst h'
        exact ⟨heq, le_refl _, fun j hij hjk => absurd hjk (by omega)⟩
      · rename_i hne
        obtain ⟨h1, h2, h3⟩ := ih (i + 1) k h
        refine ⟨h1, by omega, ?_⟩
        intro j hij hjk
        rcases Nat.eq_or_lt_of_le hij with rfl | hlt
        · exact hne
        · exact h3 j (by omega) hjk

/-- With a target of zero and the counter starting at zero, the loop exits
at the very first check. -/
theorem waitLoopPolls_zero_target (fuel : Nat) (readyAt : Nat → Nat) (h : readyAt 0 = 0) :
    waitLoopPolls (fuel + 1) readyAt 0 0 = some 0 := by
  unfold waitLoopPolls
  simp [h]

/-! ## Helper lemmas: async.series -/

theorem runSeries_cons {σ ε : Type} (st : Stage σ ε) (rest : List (Stage σ ε)) (s : σ) :
    runSeries (st :: rest) s =
      match st s with
      | (s', StageOutcome.ok) => runSeries rest s'
      | (s', StageOutcome.fail e) => (s', SeriesResult.failed e)
      | (s', StageOutcome.stall) => (s', SeriesResult.stalled) := rfl

theorem runSeries_cons_ok {σ ε : Type} (st : Stage σ ε) (rest : List (Stage σ ε)) (s s' : σ)
    (h : st s = (s', StageOutcome.ok)) :
    runSeries (st :: rest) s = runSeries rest s' := by
  rw [runSeries_cons, h]

theorem runSeries_cons_fail {σ ε : Type} (st : Stage σ ε) (rest : List (Stage σ ε)) (s s' : σ)
    (e : ε) (h : st s = (s', StageOutcome.fail e)) :
    runSeries (st :: rest) s = (s', SeriesResult.failed e) := by
  rw [runSeries_cons, h]

theorem runSeries_cons_stall {σ ε : Type} (st : Stage σ ε) (rest : List (Stage σ ε)) (s s' : σ)
    (h : st s = (s', StageOutcome.stall)) :
    runSeries (st :: rest) s = (s', SeriesResult.stalled) := by
  rw [runSeries_cons, h]

/-- A fully successful prefix hands its final state to the remaining
stages. -/
theorem runSeries_append_done {σ ε : Type} (pre rest : List (Stage σ ε)) (s s' : σ)
    (h : runSeries pre s = (s', SeriesResult.done)) :
    runSeries (pre ++ rest) s = runSeries rest s' := by
  induction pre generalizing s with
  | nil =>
      simp only [runSeries, Prod.mk.injEq] at h
      rw [List.nil_append, h.1]
  | cons a pre' ih =>
      rcases ha : a s with ⟨t, o⟩
      cases o with
      | ok =>
          rw [runSeries_cons_ok a pre' s t ha] at h
          rw [List.cons_append, runSeries_cons_ok a (pre' ++ rest) s t ha]
          exact ih t h
      | fail e =>
          rw [runSeries_cons_fail a pre' s t e ha] at h
          simp at h
      | stall =>
          rw [runSeries_cons_stall a pre' s t ha] at h
          simp at h

/-! ## Claim theorems -/

/-- C1: Server.listen selects exactly one transport branch by the
three-step precedence: protocol options set with a multiplexed protocol
(H2 or SPDY) give the spdy listener regardless of credentials; otherwise
options carrying certificate and key give the https listener; otherwise
the plain listener is started. The source branch selection coincides
with the specification's precedence on every configuration. -/
theorem C1_negotiation_precedence (cfg : Option INodeSpdyConfiguration) :
    negotiate cfg = spec_negotiate cfg := by
  cases cfg with
  | none => rfl
  | some c =>
      unfold negotiate spec_negotiate
      by_cases h1 : hasMultiplexedProtocol c.spdy.protocols <;> simp [h1]

/-- C2 counterexample: a configuration that requests the multiplexed H2
protocol while carrying neither certificate nor key does not fall
through to the next branch of the precedence order; Server.listen takes
the multiplexed spdy branch at that very configuration. -/
theorem C2_counterexample :
    serverH2NoCreds.spdyConfiguration = some cfgH2NoCreds ∧
    hasMultiplexedProtocol cfgH2NoCreds.spdy.protocols = true ∧
    strTruthy cfgH2NoCreds.cert = false ∧
    strTruthy cfgH2NoCreds.key = false ∧
    negotiate serverH2NoCreds.spdyConfiguration = ListenBranch.spdy ∧
    (Server.listen 3000 false serverH2NoCreds).server.map Listener.branch
      = some ListenBranch.spdy :=
  ⟨rfl, rfl, rfl, rfl, rfl, rfl⟩

/-- C2 (amended): listen performs no credential validation: a
configuration requesting a multiplexed protocol proceeds on the spdy
branch even without certificate and key, and a non-multiplexed
configuration lacking certificate or key falls through to the plain
branch rather than erroring. -/
theorem C2_no_validation_fallthrough (c : INodeSpdyConfiguration) :
    (hasMultiplexedProtocol c.spdy.protocols = true →
      negotiate (some c) = ListenBranch.spdy) ∧
    (hasMultiplexedProtocol c.spdy.protocols = false →
      (strTruthy c.cert && strTruthy c.key) = false →
      negotiate (some c) = ListenBranch.plain) := by
  constructor
  · intro h
    simp [negotiate, h]
  · intro h1 h2
    simp [negotiate, h1, h2]

/-- Witness for C2 (amended), at the concrete H2-without-credentials and
HTTP1-without-credentials configurations. -/
theorem C2_no_validation_fallthrough_witness :
    negotiate (some cfgH2NoCreds) = ListenBranch.spdy ∧
    negotiate (some cfgHttp1NoCreds) = ListenBranch.plain :=
  ⟨(C2_no_validation_fallthrough cfgH2NoCreds).1 rfl,
    (C2_no_validation_fallthrough cfgHttp1NoCreds).2 rfl rfl⟩

/-- C3: the readiness barrier over N configured gateways: the counter
reaches N exactly when every configured gateway has fired its one-shot
ready event; the counter never exceeds N; a second ready event from a
gateway that already fired changes nothing; a resolved polling loop
resolved at the first check where the counter equalled the target; and
with zero gateways the wait resolves at the initial check, before any
polling wait. -/
theorem C3_readiness_barrier :
    (∀ names es : List String, names.Nodup →
        ((fireAll names initBarrier es).gatewaysReady = names.length ↔
          ∀ g ∈ names, g ∈ es)) ∧
    (∀ names es : List String,
        (fireAll names initBarrier es).gatewaysReady ≤ names.length) ∧
    (∀ (names es : List String) (g : String), g ∈ es →
        fireAll names initBarrier (es ++ [g]) = fireAll names initBarrier es) ∧
    (∀ (fuel : Nat) (readyAt : Nat → Nat) (target i k : Nat),
        waitLoopPolls fuel readyAt target i = some k →
        readyAt k = target ∧ ∀ j, i ≤ j → j < k → readyAt j ≠ target) ∧
    (∀ (fuel : Nat) (readyAt : Nat → Nat), readyAt 0 = 0 →
        waitLoopPolls (fuel + 1) readyAt 0 0 = some 0) :=
  ⟨fun names es h => fireAll_count_complete names es h,
    fun names es => fireAll_count_le names es,
    fun names es g h => fireAll_refire names es g h,
    fun fuel readyAt target i k h =>
      ⟨(waitLoopPolls_spec fuel readyAt target i k h).1,
        (waitLoopPolls_spec fuel readyAt target i k h).2.2⟩,
    fun fuel readyAt h => waitLoopPolls_zero_target fuel readyAt h⟩

/-- Witness for C3, with two concrete gateways: both firing resolves the
count to 2, a duplicate fire changes nothing, and a zero-gateway loop
resolves at check zero with no polling wait. -/
theorem C3_readiness_barrier_witness :
    (fireAll ["g1", "g2"] initBarrier ["g1", "g2"]).gatewaysReady = 2 ∧
    fireAll ["g1", "g2"] initBarrier (["g1", "g2"] ++ ["g1"])
      = fireAll ["g1", "g2"] initBarrier ["g1", "g2"] ∧
    waitLoopPolls 1 (fun _ => 0) 0 0 = some 0 :=
  ⟨(C3_readiness_barrier.1 ["g1", "g2"] ["g1", "g2"] (by decide)).mpr (by decide),
    C3_readiness_barrier.2.2.1 ["g1", "g2"] ["g1", "g2"] "g1" (by decide),
    C3_readiness_barrier.2.2.2.2 0 (fun _ => 0) rfl⟩

/-- C4: the pipeline is fail-fast: when a stage signals an error after a
successful prefix, the run ends at that stage with the error, whatever
stages follow (they contribute nothing to the result); an errored series
makes init return the error without invoking listen; init reports done
only when the whole series completed, and then the final state is
exactly listen applied to the series' final state; and the storefront
pipeline has exactly seven stages. -/
theorem C4_fail_fast :
    (∀ (σ ε : Type) (pre post : List (Stage σ ε)) (fs : Stage σ ε) (s s' s'' : σ) (e : ε),
        runSeries pre s = (s', SeriesResult.done) →
        fs s' = (s'', StageOutcome.fail e) →
        runSeries (pre ++ fs :: post) s = (s'', SeriesResult.failed e)) ∧
    (∀ (σ ε : Type) (stages : List (Stage σ ε)) (doListen : σ → σ) (s s' : σ) (e : ε),
        runSeries stages s = (s', SeriesResult.failed e) →
        runInit stages doListen s = (s', SeriesResult.failed e)) ∧
    (∀ (σ ε : Type) (stages : List (Stage σ ε)) (doListen : σ → σ) (s t : σ),
        runInit stages doListen s = (t, SeriesResult.done) →
        ∃ s', runSeries stages s = (s', SeriesResult.done) ∧ t = doListen s') ∧
    (∀ cfg : SfCfg, (storefrontStages cfg).length = 7) := by
  refine ⟨?_, ?_, ?_, ?_⟩
  · intro σ ε pre post fs s s' s'' e hpre hfs
    rw [runSeries_append_done pre (fs :: post) s s' hpre]
    exact runSeries_cons_fail fs post s' s'' e hfs
  · intro σ ε stages doListen s s' e h
    unfold runInit
    rw [h]
  · intro σ ε stages doListen s t h
    unfold runInit at h
    rcases hr : runSeries stages s with ⟨s', r⟩
    rw [hr] at h
    cases r with
    | done =>
        injection h with h1 h2
        exact ⟨s', rfl, h1.symm⟩
    | failed e => simp at h
    | stalled => simp at h
  · intro cfg
    rfl

/-- Witness for C4: a two-stage series whose first stage fails stops at
once with that error, never reaching the second stage. -/
theorem C4_fail_fast_witness :
    runSeries
      ([] ++ (fun n : Nat => (n, StageOutcome.fail "boom"))
        :: [fun n : Nat => (n + 1, StageOutcome.ok)]) 0
      = (0, SeriesResult.failed "boom") :=
  C4_fail_fast.1 Nat String [] [fun n => (n + 1, StageOutcome.ok)]
    (fun n => (n, StageOutcome.fail "boom")) 0 0 0 "boom" rfl rfl

/-- C5: pipeline stage ordering: a stage's successor runs from the state
its continuation delivered, and never begins before it; after a stalled
stage nothing runs, whatever stages follow; on a full success of the
storefront pipeline the trace is the dependency registrations, then the
debug route, the custom-headers install, the health-check route and the
page routes, with the listen call last, so dependency registration
completes before any route registration; and when the readiness stage
never resolves, the trace holds only the dependency registrations: no
route is ever registered and listen is never called. -/
theorem C5_stage_ordering :
    (∀ (σ ε : Type) (st : Stage σ ε) (rest : List (Stage σ ε)) (s s' : σ),
        st s = (s', StageOutcome.ok) →
        runSeries (st :: rest) s = runSeries rest s') ∧
    (∀ (σ ε : Type) (st : Stage σ ε) (rest rest' : List (Stage σ ε)) (s s' : σ),
        st s = (s', StageOutcome.stall) →
        runSeries (st :: rest) s = (s', SeriesResult.stalled) ∧
        runSeries (st :: rest) s = runSeries (st :: rest') s) ∧
    (∀ cfg : SfCfg,
        (storefrontInit cfg { trace := [], gatewaysEventuallyReady := true }).1.trace =
          cfg.dependencies.map SfAction.registerDependency
            ++ [SfAction.routeAdded (PathArg.one PUZZLE_DEBUGGER_LINK) HTTP_METHODS.get]
            ++ (if cfg.customHeaders.isSome then [SfAction.customHeadersInstalled] else [])
            ++ [SfAction.routeAdded (PathArg.many HEALTHCHECK_PATHS) HTTP_METHODS.get]
            ++ cfg.pages.flatMap (fun p =>
                [SfAction.routeAdded (PathArg.one p.url) HTTP_METHODS.get,
                  SfAction.routeAdded (PathArg.one p.url) HTTP_METHODS.post])
            ++ [SfAction.listenCalled cfg.port]) ∧
    (∀ cfg : SfCfg,
        storefrontInit cfg { trace := [], gatewaysEventuallyReady := false } =
          ({ trace := cfg.dependencies.map SfAction.registerDependency,
              gatewaysEventuallyReady := false }, SeriesResult.stalled) ∧
        (∀ p m, SfAction.routeAdded p m ∉
            (storefrontInit cfg { trace := [], gatewaysEventuallyReady := false }).1.trace) ∧
        (∀ q, SfAction.listenCalled q ∉
            (storefrontInit cfg { trace := [], gatewaysEventuallyReady := false }).1.trace)) := by
  refine ⟨?_, ?_, ?_, ?_⟩
  · intro σ ε st rest s s' h
    exact runSeries_cons_ok st rest s s' h
  · intro σ ε st rest rest' s s' h
    exact ⟨runSeries_cons_stall st rest s s' h,
      (runSeries_cons_stall st rest s s' h).trans
        (runSeries_cons_stall st rest' s s' h).symm⟩
  · intro cfg
    simp [storefrontInit, runInit, runSeries, storefrontStages, stRegisterDependencies,
      stWaitForGateways, stRegisterDebugScripts, stAddCustomHeaders, stAddHealthCheckRoute,
      stPreLoadPages, stAddPageRoute, sfDoListen]
  · intro cfg
    refine ⟨?_, ?_, ?_⟩
    · simp [storefrontInit, runInit, runSeries, storefrontStages,
        stRegisterDependencies, stWaitForGateways]
    · intro p m
      simp [storefrontInit, runInit, runSeries, storefrontStages,
        stRegisterDependencies, stWaitForGateways]
    · intro q
      simp [storefrontInit, runInit, runSeries, storefrontStages,
        stRegisterDependencies, stWaitForGateways]

/-- Witness for C5: a stalled single-stage series ends stalled at the
stage's state. -/
theorem C5_stage_ordering_witness :
    runSeries ((fun n : Nat => ((n, StageOutcome.stall) : Nat × StageOutcome String)) :: []) 0
      = (0, SeriesResult.stalled) :=
  (C5_stage_ordering.2.1 Nat String (fun n => (n, StageOutcome.stall)) [] [] 0 0 rfl).1

/-- C6: Storefront.init is idempotent by construction: under the
call-once guard, a second invocation is a no-op that re-runs no pipeline
stage and does not invoke listen again, for every configuration and
every guarded state. -/
theorem C6_init_callable_once (cfg : SfCfg) (st : OnceState SfState) :
    storefrontInitOnce cfg (storefrontInitOnce cfg st) = storefrontInitOnce cfg st := by
  unfold storefrontInitOnce callableOnce
  by_cases h : st.called
  · simp [h]
  · simp [h]

/-- C7 counterexample: with the environment variable FOO existing but set
to the empty string, the environment-sourced header X resolves to the
literal FOO, not to the existing variable's (empty) content as the claim
states. -/
theorem C7_counterexample :
    headerXFoo.isEnv = true ∧
    envFooEmpty headerXFoo.value = some "" ∧
    claim_resolveHeaderValue envFooEmpty headerXFoo = "" ∧
    resolveHeaderValue envFooEmpty headerXFoo = "FOO" ∧
    resolveHeaderValue envFooEmpty headerXFoo
      ≠ claim_resolveHeaderValue envFooEmpty headerXFoo := by
  refine ⟨rfl, by decide, by decide, by decide, by decide⟩

/-- C7 (amended): the custom-headers middleware resolves each header to
the named environment variable's content exactly when isEnvSourced is
set and the variable exists with a non-empty content; otherwise the
literal value field is used. -/
theorem C7_custom_header_resolution (env : Env) (h : ICustomHeader) :
    resolveHeaderValue env h = amended_resolveHeaderValue env h := by
  unfold resolveHeaderValue amended_resolveHeaderValue envTruthy
  cases he : env h.value with
  | none => simp
  | some s => simp

/-- C8: closing a server with an active listener discards the listener and
rebuilds an empty route table with the default middleware stack
reapplied; every previously registered route is lost, and a subsequent
listen starts a server that still carries only the default middlewares
and no routes. -/
theorem C8_close_resets (f : ServerFlags) (s : Server) (h : s.server.isSome = true) :
    (Server.close f s).server = none ∧
    (Server.close f s).app.routes = [] ∧
    (Server.close f s).app.middlewares = defaultMiddlewares f ∧
    ∀ (port : Nat) (ipv4 : Bool),
      (Server.listen port ipv4 (Server.close f s)).app.routes = [] ∧
      (Server.listen port ipv4 (Server.close f s)).app.middlewares = defaultMiddlewares f := by
  obtain ⟨l, hl⟩ := Option.isSome_iff_exists.mp h
  simp [Server.close, hl, Server.listen, AppState.addMiddlewares, emptyApp]

/-- Witness for C8, at a concrete listening server. -/
theorem C8_close_resets_witness :
    (Server.close flags0 listeningServer).server = none ∧
    (Server.close flags0 listeningServer).app.routes = [] ∧
    (Server.close flags0 listeningServer).app.middlewares = defaultMiddlewares flags0 ∧
    (Server.listen 9090 true (Server.close flags0 listeningServer)).app.routes = [] := by
  have h := C8_close_resets flags0 listeningServer rfl
  exact ⟨h.1, h.2.1, h.2.2.1, (h.2.2.2 9090 true).1⟩

/-- C9: an ADD_ROUTE event published while the construction-time
subscription exists is forwarded synchronously into Server.addRoute on
the current route table; close removes no subscription, so an event
published after close still appends its route to the rebuilt table. -/
theorem C9_channel_survives_close (f : ServerFlags) (ps : ProcessState) (e : AddRouteEvent)
    (hsub : ps.addRouteSubscribers = [RouteSubscriber.forwardToAddRoute]) :
    (publishAddRoute e ps).server.app.routes
      = ps.server.app.routes ++ [(PathArg.one e.path, e.method)] ∧
    (processClose f ps).addRouteSubscribers = ps.addRouteSubscribers ∧
    (publishAddRoute e (processClose f ps)).server.app.routes
      = (processClose f ps).server.app.routes ++ [(PathArg.one e.path, e.method)] := by
  refine ⟨?_, rfl, ?_⟩
  · simp [publishAddRoute, hsub, applySubscriber, Server.addRoute]
  · simp [publishAddRoute, processClose, hsub, applySubscriber, Server.addRoute]

/-- Witness for C9, at a freshly constructed process publishing one event
before and after close. -/
theorem C9_channel_survives_close_witness :
    (publishAddRoute ev0 (newProcess flags0)).server.app.routes
      = (newProcess flags0).server.app.routes ++ [(PathArg.one "/p", HTTP_METHODS.get)] ∧
    (publishAddRoute ev0 (processClose flags0 (newProcess flags0))).server.app.routes
      = (processClose flags0 (newProcess flags0)).server.app.routes
          ++ [(PathArg.one "/p", HTTP_METHODS.get)] := by
  have h := C9_channel_survives_close flags0 (newProcess flags0) ev0 rfl
  exact ⟨h.1, h.2.2⟩

/-- C10: closing a server that has no active listener is a complete no-op:
the whole server state, route table, middleware stack and null listener
field included, is left unchanged. -/
theorem C10_close_noop (f : ServerFlags) (s : Server) (h : s.server = none) :
    Server.close f s = s := by
  simp [Server.close, h]

/-- Witness for C10: closing a freshly constructed, never-listening server
changes nothing. -/
theorem C10_close_noop_witness :
    Server.close flags0 (newServer flags0) = newServer flags0 :=
  C10_close_noop flags0 (newServer flags0) rfl
